import Mathlib

/-!
Verification of the ipp-sys IPP client against its specification.

The development shallowly embeds the protocol-layer code:
  * `src/src/util.rs` — the `do_print` / `do_status` utility functions
    (printer-state precondition check, option-value inference, sorted
    status output);
  * `src/ipp-proto/src/builder.rs` — the fluent operation builders
    (`PrintJobBuilder`, `CreateJobBuilder`, `GetPrinterAttributesBuilder`,
    `SendDocumentBuilder`).

Operations and values whose defining source is not part of the audited
tree (the `ipp-proto` value model, the `PrinterState` consts, the
attribute-list lookup) are modelled from the specification and marked as
such in their doc comments.
-/

/-- The IPP attribute value model: a closed tagged union.  Mirrors the
variants used by the embedded code (`IppValue` in ipp-proto): integers,
booleans, enums, keywords, human text, lists, plus an opaque fallback. -/
inductive IppValue where
  | Integer (i : Int)
  | Boolean (b : Bool)
  | Enum (e : Int)
  | Keyword (k : String)
  | Text (s : String)
  | ListOf (vs : List IppValue)
  | Other
  deriving Repr

/-- An IPP attribute: a protocol name paired with a value
(`IppAttribute` in ipp-proto). -/
structure IppAttribute where
  name : String
  value : IppValue
  deriving Repr

/-- Well-known attribute name `printer-state` (consts::attribute::PRINTER_STATE). -/
def PRINTER_STATE : String := "printer-state"

/-- Well-known attribute name `printer-state-reasons`
(consts::attribute::PRINTER_STATE_REASONS). -/
def PRINTER_STATE_REASONS : String := "printer-state-reasons"

/-- The fixed deny-list of printer-state-reason keywords that block
printing (`ERROR_STATES` in src/src/util.rs lines 19-30). -/
def ERROR_STATES : List String :=
  ["media-jam", "toner-empty", "spool-area-full", "cover-open", "door-open",
   "input-tray-missing", "output-tray-missing", "marker-supply-empty",
   "paused", "shutdown"]

/-- Printer states distinguished by the client.  The enum itself lives in
the `consts` module, which is not part of the audited tree. -/
inductive PrinterState where
  | Idle
  | Processing
  | Stopped
  deriving Repr, DecidableEq

/-- Modelled from the spec: `PrinterState::from_i32`, the partial mapping
from the wire enum integer to a known printer state ("the printer-state
stopped code" is a well-known enum value).  The numeric codes are the
standard IPP printer-state values (idle = 3, processing = 4, stopped = 5);
the defining `consts` source is not in the audited tree. -/
def PrinterState.from_i32 : Int → Option PrinterState
  | 3 => some PrinterState.Idle
  | 4 => some PrinterState.Processing
  | 5 => some PrinterState.Stopped
  | _ => none

/-- Modelled from the spec: attribute lookup by name within one attribute
group (`IppAttributeList::get(tag, name)` restricted to the group with
that tag; the defining attribute-list source is not in the audited tree).
Per the spec, duplicates are treated as last-wins on lookup. -/
def getAttr (group : List IppAttribute) (name : String) : Option IppAttribute :=
  (group.filter (fun a => a.name = name)).getLast?

/-- Errors surfaced by the utility layer (`IppError`); only the variant
the embedded code constructs is distinguished. -/
inductive IppError where
  | PrinterStateError (reasons : List String)
  | OtherError
  deriving Repr, DecidableEq

/-- Extraction of state-reason keywords from the `printer-state-reasons`
attribute value (src/src/util.rs lines 74-86): a `ListOf` keeps only its
`Keyword` elements, a bare `Keyword` yields itself, anything else yields
no keywords. -/
def stateKeywords : IppValue → List String
  | IppValue.ListOf vs =>
      vs.filterMap (fun e =>
        match e with
        | IppValue.Keyword k => some k
        | _ => none)
  | IppValue.Keyword v => [v]
  | _ => []

/-- The stopped-state test of the precondition check (src/src/util.rs
lines 62-71): true exactly when the printer-attributes group carries a
`printer-state` attribute whose value is an `Enum` mapping to
`PrinterState::Stopped`. -/
def checkStopped (attrs : List IppAttribute) : Bool :=
  match getAttr attrs PRINTER_STATE with
  | some a =>
      match a.value with
      | IppValue.Enum e =>
          match PrinterState.from_i32 e with
          | some s => s = PrinterState.Stopped
          | none => false
      | _ => false
  | none => false

/-- The state-reasons test of the precondition check (src/src/util.rs
lines 73-91): extracts the reason keywords and errors when any of them is
in `ERROR_STATES`, carrying the whole extracted keyword list. -/
def reasonsCheck (attrs : List IppAttribute) : Option IppError :=
  match getAttr attrs PRINTER_STATE_REASONS with
  | some reasons =>
      let keywords := stateKeywords reasons.value
      if keywords.any (fun k => ERROR_STATES.contains k) then
        some (IppError.PrinterStateError keywords)
      else
        none
  | none => none

/-- The full printer-state precondition check of `do_print`
(src/src/util.rs lines 62-91): the stopped test runs first and returns
the fixed reason list `["stopped"]`; otherwise the reasons test runs. -/
def checkPrinterState (attrs : List IppAttribute) : Option IppError :=
  if checkStopped attrs then
    some (IppError.PrinterStateError ["stopped"])
  else
    reasonsCheck attrs

/-- Rust `str::parse::<i32>` semantics: an optional single `+`/`-` sign
followed by at least one ASCII digit, with the resulting value required
to fit in a 32-bit signed integer; anything else fails. -/
def parse_i32 (s : String) : Option Int :=
  let cs := s.data
  let signDigits : Int × List Char :=
    match cs with
    | '+' :: rest => (1, rest)
    | '-' :: rest => (-1, rest)
    | rest => (1, rest)
  let sign := signDigits.1
  let digits := signDigits.2
  if digits = [] then none
  else if digits.all Char.isDigit then
    let n : Nat := digits.foldl (fun acc c => 10 * acc + (c.toNat - 48)) 0
    let v : Int := sign * (n : Int)
    if -(2 ^ 31) ≤ v ∧ v < 2 ^ 31 then some v else none
  else none

/-- Value inference for an extra `key=value` option of `do_print`
(src/src/util.rs lines 106-112): `Integer` when the text parses as an
i32, else `Boolean` when the text is literally `true` or `false`, else
`Keyword`. -/
def inferOptionValue (v : String) : IppValue :=
  match parse_i32 v with
  | some iv => IppValue.Integer iv
  | none =>
      if v = "true" ∨ v = "false" then IppValue.Boolean (v = "true")
      else IppValue.Keyword v

/-- Parsing of one `-o key=value` argument (src/src/util.rs lines
102-115): split on `=`; the key is the first fragment and the value the
second; an argument with no `=` contributes no attribute. -/
def parseOption (arg : String) : Option IppAttribute :=
  match arg.splitOn "=" with
  | k :: v :: _ => some { name := k, value := inferOptionValue v }
  | _ => none

/-- The extra job attributes a list of `-o` arguments contributes, in
argument order (the loop of src/src/util.rs lines 102-116). -/
def optionAttributes (options : List String) : List IppAttribute :=
  options.filterMap parseOption

/-- The operations `do_print` can issue over the wire, recorded as a
trace: the precondition `GetPrinterAttributes` query, the single-call
`PrintJob`, and the two-step `CreateJob` / `SendDocument` operations
(which `do_print` never uses). -/
inductive SentOp where
  | GetPrinterAttributesOp (names : List String)
  | PrintJobOp (user_name : String) (job_name : Option String)
      (extra : List IppAttribute)
  | CreateJobOp
  | SendDocumentOp
  deriving Repr

/-- Embedding of `do_print` (src/src/util.rs lines 49-126) as a pure
function.  Arguments: the `--no-check-state` flag, the printer-attributes
group the precondition query would return, the requesting user name, the
optional job name, and the raw `-o` options.  The result pairs the trace
of issued operations with the error outcome; network transport is assumed
to deliver the given response. -/
def do_print (nocheckstate : Bool) (printerAttrs : List IppAttribute)
    (username : String) (jobname : Option String) (options : List String) :
    List SentOp × Option IppError :=
  if nocheckstate then
    ([SentOp.PrintJobOp username jobname (optionAttributes options)], none)
  else
    match checkPrinterState printerAttrs with
    | some e =>
        ([SentOp.GetPrinterAttributesOp [PRINTER_STATE, PRINTER_STATE_REASONS]],
         some e)
    | none =>
        ([SentOp.GetPrinterAttributesOp [PRINTER_STATE, PRINTER_STATE_REASONS],
          SentOp.PrintJobOp username jobname (optionAttributes options)],
         none)

mutual

/-- Modelled from the spec: the canonical deterministic text rendering of
a value (the `Display` implementation of `IppValue`, not in the audited
tree); renders keyword/enum/integer/boolean cases losslessly. -/
def renderValue : IppValue → String
  | IppValue.Integer i => toString i
  | IppValue.Boolean b => if b then "true" else "false"
  | IppValue.Enum e => toString e
  | IppValue.Keyword k => k
  | IppValue.Text s => s
  | IppValue.ListOf vs => String.intercalate ", " (renderValueList vs)
  | IppValue.Other => ""

/-- Renders each element of a value list (helper for `renderValue`). -/
def renderValueList : List IppValue → List String
  | [] => []
  | v :: vs => renderValue v :: renderValueList vs

end

/-- One output line of `do_status` for one attribute: `name: value`
(src/src/util.rs line 141). -/
def formatAttr (a : IppAttribute) : String :=
  a.name ++ ": " ++ renderValue a.value

/-- The name ordering `do_status` sorts by (src/src/util.rs line 139). -/
def attrNameLE (a b : IppAttribute) : Prop := a.name ≤ b.name

instance : DecidableRel attrNameLE := fun a b =>
  inferInstanceAs (Decidable (a.name ≤ b.name))

instance : IsTotal IppAttribute attrNameLE :=
  ⟨fun a b => le_total a.name b.name⟩

instance : IsTrans IppAttribute attrNameLE :=
  ⟨fun _ _ _ h1 h2 => le_trans h1 h2⟩

/-- The sort `do_status` applies to the printer-attributes group
(src/src/util.rs lines 138-139): a stable sort by attribute name,
embedded as insertion sort. -/
def sortAttrs (group : List IppAttribute) : List IppAttribute :=
  List.insertionSort attrNameLE group

/-- Embedding of the output of `do_status` (src/src/util.rs lines
128-145): the printer attributes of the response group, sorted by name,
one `name: value` line per attribute. -/
def do_status_lines (group : List IppAttribute) : List String :=
  (sortAttrs group).map formatAttr

/-- Well-known attribute name `requesting-user-name`. -/
def REQUESTING_USER_NAME : String := "requesting-user-name"

/-- Well-known attribute name `job-name`. -/
def JOB_NAME : String := "job-name"

/-- Modelled from the spec: the well-known attributes a `PrintJob`
operation itself sets from its constructor parameters
(`PrintJob::new(source, user_name, job_title)` in ipp-proto, not in the
audited tree): requesting-user-name and job-name, when supplied, precede
all caller attributes. -/
def printJobWellKnown (user_name job_title : Option String) : List IppAttribute :=
  (match user_name with
   | some u => [{ name := REQUESTING_USER_NAME, value := IppValue.Text u }]
   | none => []) ++
  (match job_title with
   | some j => [{ name := JOB_NAME, value := IppValue.Text j }]
   | none => [])

/-- Modelled from the spec: the well-known attribute a `CreateJob`
operation itself sets (`CreateJob::new(job_name)` in ipp-proto, not in
the audited tree): job-name, when supplied. -/
def createJobWellKnown (job_name : Option String) : List IppAttribute :=
  match job_name with
  | some j => [{ name := JOB_NAME, value := IppValue.Text j }]
  | none => []

/-- A built `PrintJob` operation, reduced to its request job attributes
in emission order (the document source is opaque and omitted).
`add_attribute` is append-only per the spec. -/
structure PrintJob where
  attributes : List IppAttribute
  deriving Repr

/-- Modelled from the spec: `PrintJob::new` sets the well-known
attributes from its parameters. -/
def PrintJob.new (user_name job_title : Option String) : PrintJob :=
  { attributes := printJobWellKnown user_name job_title }

/-- Modelled from the spec: `add_attribute` pushes, append-only, with no
overwrite-by-name semantics. -/
def PrintJob.add_attribute (op : PrintJob) (a : IppAttribute) : PrintJob :=
  { op with attributes := op.attributes ++ [a] }

/-- A built `CreateJob` operation, reduced to its request job attributes
in emission order. -/
structure CreateJob where
  attributes : List IppAttribute
  deriving Repr

/-- Modelled from the spec: `CreateJob::new` sets job-name when given. -/
def CreateJob.new (job_name : Option String) : CreateJob :=
  { attributes := createJobWellKnown job_name }

/-- Modelled from the spec: `add_attribute` pushes, append-only. -/
def CreateJob.add_attribute (op : CreateJob) (a : IppAttribute) : CreateJob :=
  { op with attributes := op.attributes ++ [a] }

/-- A built `GetPrinterAttributes` operation.  Modelled from the spec:
`GetPrinterAttributes::with_attributes` (ipp-proto, not in the audited
tree) records exactly the requested attribute names; an empty list is the
request-everything request. -/
structure GetPrinterAttributes where
  requested : List String
  deriving Repr

/-- Modelled from the spec: `with_attributes` sends exactly the supplied
list, with no implicit augmentation. -/
def GetPrinterAttributes.with_attributes (names : List String) : GetPrinterAttributes :=
  { requested := names }

/-- A built `SendDocument` operation, reduced to the fields the builder
populates (the document source is opaque and omitted).  Modelled from the
spec: `SendDocument::new(job_id, source, user_name, last)` carries its
arguments verbatim. -/
structure SendDocument where
  job_id : Int
  user_name : Option String
  last : Bool
  deriving Repr, DecidableEq

/-- `PrintJobBuilder` state (src/ipp-proto/src/builder.rs lines 44-49). -/
structure PrintJobBuilder where
  user_name : Option String
  job_title : Option String
  attributes : List IppAttribute
  deriving Repr

/-- `PrintJobBuilder::new` (builder.rs lines 52-59): no user name, no job
title, no extra attributes. -/
def PrintJobBuilder.new : PrintJobBuilder :=
  { user_name := none, job_title := none, attributes := [] }

/-- `PrintJobBuilder::user_name` (builder.rs lines 61-64). -/
def PrintJobBuilder.withUserName (b : PrintJobBuilder) (u : String) : PrintJobBuilder :=
  { b with user_name := some u }

/-- `PrintJobBuilder::job_title` (builder.rs lines 67-70). -/
def PrintJobBuilder.withJobTitle (b : PrintJobBuilder) (j : String) : PrintJobBuilder :=
  { b with job_title := some j }

/-- `PrintJobBuilder::attribute` (builder.rs lines 73-76): pushes one
extra attribute. -/
def PrintJobBuilder.attribute (b : PrintJobBuilder) (a : IppAttribute) : PrintJobBuilder :=
  { b with attributes := b.attributes ++ [a] }

/-- `PrintJobBuilder::build` (builder.rs lines 79-85): constructs the
operation from the well-known fields, then folds `add_attribute` over the
accumulated extras in order. -/
def PrintJobBuilder.build (b : PrintJobBuilder) : PrintJob :=
  b.attributes.foldl PrintJob.add_attribute (PrintJob.new b.user_name b.job_title)

/-- `CreateJobBuilder` state (builder.rs lines 121-124). -/
structure CreateJobBuilder where
  job_name : Option String
  attributes : List IppAttribute
  deriving Repr

/-- `CreateJobBuilder::new` (builder.rs lines 127-132). -/
def CreateJobBuilder.new : CreateJobBuilder :=
  { job_name := none, attributes := [] }

/-- `CreateJobBuilder::job_name` (builder.rs lines 135-138). -/
def CreateJobBuilder.withJobName (b : CreateJobBuilder) (j : String) : CreateJobBuilder :=
  { b with job_name := some j }

/-- `CreateJobBuilder::attribute` (builder.rs lines 141-144). -/
def CreateJobBuilder.attribute (b : CreateJobBuilder) (a : IppAttribute) : CreateJobBuilder :=
  { b with attributes := b.attributes ++ [a] }

/-- `CreateJobBuilder::build` (builder.rs lines 147-153). -/
def CreateJobBuilder.build (b : CreateJobBuilder) : CreateJob :=
  b.attributes.foldl CreateJob.add_attribute (CreateJob.new b.job_name)

/-- `GetPrinterAttributesBuilder` state (builder.rs lines 89-91). -/
structure GetPrinterAttributesBuilder where
  attributes : List String
  deriving Repr, DecidableEq

/-- `GetPrinterAttributesBuilder::new` (builder.rs lines 94-96). -/
def GetPrinterAttributesBuilder.new : GetPrinterAttributesBuilder :=
  { attributes := [] }

/-- `GetPrinterAttributesBuilder::attribute` (builder.rs lines 99-102):
pushes one attribute name; may be repeated. -/
def GetPrinterAttributesBuilder.attribute (b : GetPrinterAttributesBuilder)
    (name : String) : GetPrinterAttributesBuilder :=
  { b with attributes := b.attributes ++ [name] }

/-- `GetPrinterAttributesBuilder::attributes` (builder.rs lines 105-112):
extends with a list of attribute names. -/
def GetPrinterAttributesBuilder.attributesList (b : GetPrinterAttributesBuilder)
    (names : List String) : GetPrinterAttributesBuilder :=
  { b with attributes := b.attributes ++ names }

/-- `GetPrinterAttributesBuilder::build` (builder.rs lines 115-117):
`GetPrinterAttributes::with_attributes` on the accumulated names. -/
def GetPrinterAttributesBuilder.build (b : GetPrinterAttributesBuilder) :
    GetPrinterAttributes :=
  GetPrinterAttributes.with_attributes b.attributes

/-- `SendDocumentBuilder` state (builder.rs lines 157-162); the opaque
document source is omitted. -/
structure SendDocumentBuilder where
  job_id : Int
  user_name : Option String
  is_last : Bool
  deriving Repr, DecidableEq

/-- `SendDocumentBuilder::new` (builder.rs lines 165-172): stores the
caller's `job_id` unchanged — there is no validation and no failure path —
and defaults `is_last` to `true`. -/
def SendDocumentBuilder.new (job_id : Int) : SendDocumentBuilder :=
  { job_id := job_id, user_name := none, is_last := true }

/-- `SendDocumentBuilder::user_name` (builder.rs lines 175-178). -/
def SendDocumentBuilder.withUserName (b : SendDocumentBuilder) (u : String) :
    SendDocumentBuilder :=
  { b with user_name := some u }

/-- `SendDocumentBuilder::last` (builder.rs lines 181-184): overwrites the
last-document flag with the argument. -/
def SendDocumentBuilder.last (b : SendDocumentBuilder) (l : Bool) :
    SendDocumentBuilder :=
  { b with is_last := l }

/-- `SendDocumentBuilder::build` (builder.rs lines 187-189). -/
def SendDocumentBuilder.build (b : SendDocumentBuilder) : SendDocument :=
  { job_id := b.job_id, user_name := b.user_name, last := b.is_last }

/-- `IppOperationBuilder::send_document` (builder.rs lines 35-40):
delegates to `SendDocumentBuilder::new` with no check on `job_id`. -/
def IppOperationBuilder.send_document (job_id : Int) : SendDocumentBuilder :=
  SendDocumentBuilder.new job_id

/-- The calls a caller can make to accumulate requested names on a
`GetPrinterAttributesBuilder`: `attribute` with one name or `attributes`
with a list. -/
inductive GPACall where
  | one (name : String)
  | many (names : List String)
  deriving Repr, DecidableEq

/-- Applies one accumulation call to a `GetPrinterAttributesBuilder`. -/
def applyGPACall (b : GetPrinterAttributesBuilder) : GPACall → GetPrinterAttributesBuilder
  | GPACall.one name => b.attribute name
  | GPACall.many names => b.attributesList names

/-- The names one accumulation call contributes. -/
def gpaCallNames : GPACall → List String
  | GPACall.one name => [name]
  | GPACall.many names => names

/-- The names a sequence of accumulation calls contributes, in call
order. -/
def gpaNames : List GPACall → List String
  | [] => []
  | c :: cs => gpaCallNames c ++ gpaNames cs


/-! ## Helper lemmas -/

theorem printJob_foldl_attributes (es : List IppAttribute) (op : PrintJob) :
    (es.foldl PrintJob.add_attribute op).attributes = op.attributes ++ es := by
  induction es generalizing op with
  | nil => simp
  | cons a es ih => simp [List.foldl_cons, ih, PrintJob.add_attribute]

theorem createJob_foldl_attributes (es : List IppAttribute) (op : CreateJob) :
    (es.foldl CreateJob.add_attribute op).attributes = op.attributes ++ es := by
  induction es generalizing op with
  | nil => simp
  | cons a es ih => simp [List.foldl_cons, ih, CreateJob.add_attribute]

theorem printJobBuilder_foldl_attribute (es : List IppAttribute) (b : PrintJobBuilder) :
    (es.foldl PrintJobBuilder.attribute b).attributes = b.attributes ++ es := by
  induction es generalizing b with
  | nil => simp
  | cons a es ih => simp [List.foldl_cons, ih, PrintJobBuilder.attribute]

theorem createJobBuilder_foldl_attribute (es : List IppAttribute) (b : CreateJobBuilder) :
    (es.foldl CreateJobBuilder.attribute b).attributes = b.attributes ++ es := by
  induction es generalizing b with
  | nil => simp
  | cons a es ih => simp [List.foldl_cons, ih, CreateJobBuilder.attribute]

theorem gpa_foldl_calls (calls : List GPACall) (b : GetPrinterAttributesBuilder) :
    (calls.foldl applyGPACall b).attributes = b.attributes ++ gpaNames calls := by
  induction calls generalizing b with
  | nil => simp [gpaNames]
  | cons c cs ih =>
      cases c with
      | one name =>
          simp [List.foldl_cons, ih, applyGPACall, GetPrinterAttributesBuilder.attribute,
            gpaNames, gpaCallNames]
      | many names =>
          simp [List.foldl_cons, ih, applyGPACall, GetPrinterAttributesBuilder.attributesList,
            gpaNames, gpaCallNames]

theorem sendDocument_foldl_last (bs : List Bool) (b : SendDocumentBuilder) :
    (bs.foldl SendDocumentBuilder.last b).is_last = bs.getLastD b.is_last := by
  induction bs generalizing b with
  | nil => simp
  | cons x xs ih =>
      rw [List.foldl_cons, List.getLastD_cons]
      exact ih (SendDocumentBuilder.last b x)

/-! ## Claims about the operation builders -/

/-- C1, counterexample: constructing a `SendDocument` operation with
`job_id = 0` (or any non-positive id) does not fail at construction time:
the builder accepts the id and the built operation carries it verbatim. -/
theorem c1_counterexample_zero_job_id_builds :
    ((IppOperationBuilder.send_document 0).build).job_id = 0
    ∧ ((IppOperationBuilder.send_document (-7)).build).job_id = -7 :=
  ⟨rfl, rfl⟩

/-- C1, amended: the `SendDocument` builder performs no validation of
`job_id` — `SendDocumentBuilder::new` has no failure path; for every
`job_id`, including 0 and negative values, construction succeeds and the
built operation stores the id verbatim (with no user name and the
last-document flag defaulted to true). -/
theorem c1_amended_send_document_accepts_any_job_id (job_id : Int) :
    (IppOperationBuilder.send_document job_id).build =
      { job_id := job_id, user_name := none, last := true } :=
  rfl

/-- C7: `PrintJobBuilder` and `CreateJobBuilder` apply extra attributes
in call order, appended after the well-known attributes the operation
itself sets (requesting-user-name/job-name for PrintJob, job-name for
CreateJob); extra attributes never overwrite the well-known ones, and a
duplicate name supplied by the caller is carried alongside them. -/
theorem c7_builders_append_extras_after_well_known (pb : PrintJobBuilder)
    (cb : CreateJobBuilder) (es : List IppAttribute) :
    pb.build.attributes = printJobWellKnown pb.user_name pb.job_title ++ pb.attributes
    ∧ cb.build.attributes = createJobWellKnown cb.job_name ++ cb.attributes
    ∧ (es.foldl PrintJobBuilder.attribute pb).attributes = pb.attributes ++ es
    ∧ (es.foldl CreateJobBuilder.attribute cb).attributes = cb.attributes ++ es := by
  refine ⟨?_, ?_, ?_, ?_⟩
  · simpa [PrintJobBuilder.build, PrintJob.new] using
      printJob_foldl_attributes pb.attributes (PrintJob.new pb.user_name pb.job_title)
  · simpa [CreateJobBuilder.build, CreateJob.new] using
      createJob_foldl_attributes cb.attributes (CreateJob.new cb.job_name)
  · exact printJobBuilder_foldl_attribute es pb
  · exact createJobBuilder_foldl_attribute es cb

/-- C8: a `GetPrinterAttributes` operation built from any sequence of
`attribute`/`attributes` accumulation calls requests exactly the
accumulated names in call order, with no implicit augmentation; with no
accumulated names the built operation requests the empty list (the
request-everything request). -/
theorem c8_get_printer_attributes_exact_list (calls : List GPACall) :
    ((calls.foldl applyGPACall GetPrinterAttributesBuilder.new).build).requested
        = gpaNames calls
    ∧ (GetPrinterAttributesBuilder.new.build).requested = [] := by
  constructor
  · simpa [GetPrinterAttributesBuilder.build, GetPrinterAttributes.with_attributes,
      GetPrinterAttributesBuilder.new] using
      gpa_foldl_calls calls GetPrinterAttributesBuilder.new
  · rfl

/-- C9: a `SendDocumentBuilder` built without any `last` call produces an
operation with the last-document flag true; after any sequence of `last`
calls the flag equals the argument of the most recent call. -/
theorem c9_last_document_flag (job_id : Int) (bs : List Bool) :
    ((SendDocumentBuilder.new job_id).build).last = true
    ∧ ((bs.foldl SendDocumentBuilder.last (SendDocumentBuilder.new job_id)).build).last
        = bs.getLastD true := by
  constructor
  · rfl
  · simpa [SendDocumentBuilder.build, SendDocumentBuilder.new] using
      sendDocument_foldl_last bs (SendDocumentBuilder.new job_id)

/-! ## Helper lemmas for the do_print precondition check -/

theorem do_print_outcome (attrs : List IppAttribute) (username : String)
    (jobname : Option String) (options : List String) :
    (do_print false attrs username jobname options).2 = checkPrinterState attrs := by
  unfold do_print
  cases h : checkPrinterState attrs <;> simp [h]

theorem checkStopped_eq_true_iff (attrs : List IppAttribute) :
    checkStopped attrs = true ↔
      ∃ a e, getAttr attrs PRINTER_STATE = some a ∧ a.value = IppValue.Enum e ∧
        PrinterState.from_i32 e = some PrinterState.Stopped := by
  unfold checkStopped
  cases hga : getAttr attrs PRINTER_STATE with
  | none => simp
  | some a =>
      cases hv : a.value with
      | Enum e =>
          cases hf : PrinterState.from_i32 e with
          | none => simp [hv, hf]
          | some s => simp [hv, hf]
      | Integer i => simp [hv]
      | Boolean b => simp [hv]
      | Keyword k => simp [hv]
      | Text s => simp [hv]
      | ListOf vs => simp [hv]
      | Other => simp [hv]

theorem reasonsCheck_isSome_iff (attrs : List IppAttribute) :
    (reasonsCheck attrs).isSome = true ↔
      ∃ a, getAttr attrs PRINTER_STATE_REASONS = some a ∧
        ∃ k ∈ stateKeywords a.value, k ∈ ERROR_STATES := by
  unfold reasonsCheck
  cases hga : getAttr attrs PRINTER_STATE_REASONS with
  | none => simp
  | some a =>
      by_cases hb : (stateKeywords a.value).any (fun k => ERROR_STATES.contains k) = true
      · simp [hb]
      · simp [hb]

theorem checkPrinterState_isSome_iff (attrs : List IppAttribute) :
    (checkPrinterState attrs).isSome = true ↔
      checkStopped attrs = true ∨ (reasonsCheck attrs).isSome = true := by
  unfold checkPrinterState
  cases h : checkStopped attrs <;> simp [h]

/-! ## Claims about do_print and do_status -/

/-- C2: with the state check enabled, when the queried printer-state
attribute is an Enum value mapping to the Stopped state, `do_print`
returns a printer-state error and the trace of issued operations is the
precondition query alone — no create-job, send-document, or print-job
operation is issued, so the document is never sent. -/
theorem c2_stopped_blocks_print (attrs : List IppAttribute) (username : String)
    (jobname : Option String) (options : List String) (a : IppAttribute) (e : Int)
    (h1 : getAttr attrs PRINTER_STATE = some a)
    (h2 : a.value = IppValue.Enum e)
    (h3 : PrinterState.from_i32 e = some PrinterState.Stopped) :
    do_print false attrs username jobname options =
      ([SentOp.GetPrinterAttributesOp [PRINTER_STATE, PRINTER_STATE_REASONS]],
       some (IppError.PrinterStateError ["stopped"])) := by
  have hstop : checkStopped attrs = true :=
    (checkStopped_eq_true_iff attrs).mpr ⟨a, e, h1, h2, h3⟩
  unfold do_print checkPrinterState
  simp [hstop]

/-- C2 witness: a response whose printer-state is Enum 5 (the stopped
code) makes `do_print` return the stopped error after only the
precondition query. -/
theorem c2_stopped_blocks_print_witness :
    do_print false [{ name := PRINTER_STATE, value := IppValue.Enum 5 }] "user" none [] =
      ([SentOp.GetPrinterAttributesOp [PRINTER_STATE, PRINTER_STATE_REASONS]],
       some (IppError.PrinterStateError ["stopped"])) :=
  c2_stopped_blocks_print [{ name := PRINTER_STATE, value := IppValue.Enum 5 }]
    "user" none [] { name := PRINTER_STATE, value := IppValue.Enum 5 } 5 rfl rfl rfl

/-- C3: with the state check enabled, `do_print` reaches the blocked
(error) outcome exactly when the printer-state attribute holds an Enum
value mapping to the Stopped state, or some extracted state-reason
keyword belongs to the fixed deny-list `ERROR_STATES`; reason keywords
outside the deny-list never block printing on their own. -/
theorem c3_blocked_iff_stopped_or_denied (attrs : List IppAttribute)
    (username : String) (jobname : Option String) (options : List String) :
    (do_print false attrs username jobname options).2.isSome = true ↔
      ((∃ a e, getAttr attrs PRINTER_STATE = some a ∧ a.value = IppValue.Enum e ∧
          PrinterState.from_i32 e = some PrinterState.Stopped) ∨
        (∃ a, getAttr attrs PRINTER_STATE_REASONS = some a ∧
          ∃ k ∈ stateKeywords a.value, k ∈ ERROR_STATES)) := by
  rw [do_print_outcome, checkPrinterState_isSome_iff, checkStopped_eq_true_iff,
    reasonsCheck_isSome_iff]

/-- C4 counterexample: when the response carries both a deny-listed
reason and a reason outside the deny-list, the printer-state error's
payload is the full keyword list, not only the reasons that caused the
block: "other-reason" is carried although it is not in `ERROR_STATES`. -/
theorem c4_counterexample_payload_carries_non_offenders :
    checkPrinterState [IppAttribute.mk PRINTER_STATE_REASONS
        (IppValue.ListOf [IppValue.Keyword "media-jam", IppValue.Keyword "other-reason"])] =
      some (IppError.PrinterStateError ["media-jam", "other-reason"])
    ∧ ("other-reason" ∈ ERROR_STATES → False) :=
  ⟨rfl, by decide⟩

/-- C4, amended: when the precondition check blocks because of a
deny-listed printer-state reason, the error carries the complete list of
reason keywords extracted from the response, verbatim and in response
order — the offending keyword(s) included; in particular, for a response
whose only reason is "media-jam" the payload is exactly ["media-jam"]. -/
theorem c4_amended_error_carries_all_keywords (attrs : List IppAttribute)
    (a : IppAttribute)
    (hstop : checkStopped attrs = false)
    (hget : getAttr attrs PRINTER_STATE_REASONS = some a)
    (hdeny : ∃ k ∈ stateKeywords a.value, k ∈ ERROR_STATES) :
    checkPrinterState attrs =
      some (IppError.PrinterStateError (stateKeywords a.value))
    ∧ ∀ k, k ∈ stateKeywords a.value ∧ k ∈ ERROR_STATES →
        k ∈ stateKeywords a.value := by
  constructor
  · unfold checkPrinterState reasonsCheck
    rcases hdeny with ⟨k, hk, hmem⟩
    simp [hstop, hget]
    exact ⟨k, hk, hmem⟩
  · exact fun _ h => h.1

/-- C4 witness: for a response whose only state reason is the keyword
"media-jam", the error payload is exactly ["media-jam"]. -/
theorem c4_amended_error_carries_all_keywords_witness :
    checkPrinterState [IppAttribute.mk PRINTER_STATE_REASONS
        (IppValue.Keyword "media-jam")] =
      some (IppError.PrinterStateError ["media-jam"]) :=
  (c4_amended_error_carries_all_keywords
    [IppAttribute.mk PRINTER_STATE_REASONS (IppValue.Keyword "media-jam")]
    (IppAttribute.mk PRINTER_STATE_REASONS (IppValue.Keyword "media-jam"))
    rfl rfl ⟨"media-jam", by decide, by decide⟩).1

/-- C5: `do_status` outputs the printer attributes sorted by attribute
name regardless of the order in which they appear in the response group:
the sorted sequence is nondecreasing in name, and the output is one
`name: value` line per attribute of the group. -/
theorem c5_status_sorted_by_name (group : List IppAttribute) :
    List.Sorted attrNameLE (sortAttrs group)
    ∧ (do_status_lines group).Perm (group.map formatAttr)
    ∧ (do_status_lines group).length = group.length := by
  refine ⟨List.sorted_insertionSort attrNameLE group, ?_, ?_⟩
  · exact (List.perm_insertionSort attrNameLE group).map formatAttr
  · simp [do_status_lines, sortAttrs, List.length_insertionSort]

/-- C6: the value text of an extra `key=value` option is inferred with
this precedence: `Integer` when the text parses as an i32, otherwise
`Boolean` when the text is literally "true" or "false", otherwise
`Keyword` carrying the text; the result is always exactly one of these
three variants. -/
theorem c6_option_value_inference (v : String) :
    (∀ iv, parse_i32 v = some iv → inferOptionValue v = IppValue.Integer iv)
    ∧ (parse_i32 v = none → (v = "true" ∨ v = "false") →
        inferOptionValue v = IppValue.Boolean (v = "true"))
    ∧ (parse_i32 v = none → v ≠ "true" → v ≠ "false" →
        inferOptionValue v = IppValue.Keyword v)
    ∧ ((∃ i, inferOptionValue v = IppValue.Integer i) ∨
        (∃ b, inferOptionValue v = IppValue.Boolean b) ∨
        inferOptionValue v = IppValue.Keyword v) := by
  refine ⟨?_, ?_, ?_, ?_⟩
  · intro iv h
    simp [inferOptionValue, h]
  · intro h hv
    simp [inferOptionValue, h, hv]
  · intro h h1 h2
    simp [inferOptionValue, h, h1, h2]
  · unfold inferOptionValue
    cases h : parse_i32 v with
    | some iv => exact Or.inl ⟨iv, rfl⟩
    | none =>
        by_cases hv : v = "true" ∨ v = "false"
        · exact Or.inr (Or.inl ⟨decide (v = "true"), by simp [hv]⟩)
        · exact Or.inr (Or.inr (by simp [hv]))

/-- C6 witness: a numeric text yields `Integer`, the literal "true"
yields `Boolean`, and other text yields `Keyword`. -/
theorem c6_option_value_inference_witness :
    inferOptionValue "42" = IppValue.Integer 42
    ∧ inferOptionValue "true" = IppValue.Boolean true
    ∧ inferOptionValue "media-jam" = IppValue.Keyword "media-jam" :=
  ⟨(c6_option_value_inference "42").1 42 rfl,
   (c6_option_value_inference "true").2.1 rfl (Or.inl rfl),
   (c6_option_value_inference "media-jam").2.2.1 rfl (by decide) (by decide)⟩

/-- C10: the precondition check is lenient about malformed state data:
when the printer-state attribute is missing, holds a non-Enum value, or
holds an enum integer that maps to no known printer state, the stopped
check raises no error and the check is decided by the reasons test alone;
and a state-reasons value that is neither a Keyword nor a ListOf
contributes no keywords, so such a reasons attribute cannot block. -/
theorem c10_lenient_malformed_state (attrs : List IppAttribute) (v : IppValue) :
    (getAttr attrs PRINTER_STATE = none →
        checkPrinterState attrs = reasonsCheck attrs)
    ∧ (∀ a, getAttr attrs PRINTER_STATE = some a →
        (∀ e, a.value ≠ IppValue.Enum e) →
        checkPrinterState attrs = reasonsCheck attrs)
    ∧ (∀ a e, getAttr attrs PRINTER_STATE = some a → a.value = IppValue.Enum e →
        PrinterState.from_i32 e = none →
        checkPrinterState attrs = reasonsCheck attrs)
    ∧ ((∀ k, v ≠ IppValue.Keyword k) → (∀ vs, v ≠ IppValue.ListOf vs) →
        stateKeywords v = [])
    ∧ (∀ a, getAttr attrs PRINTER_STATE_REASONS = some a →
        stateKeywords a.value = [] → reasonsCheck attrs = none) := by
  refine ⟨?_, ?_, ?_, ?_, ?_⟩
  · intro h
    have hstop : checkStopped attrs = false := by
      rw [Bool.eq_false_iff]
      intro hc
      rcases (checkStopped_eq_true_iff attrs).mp hc with ⟨a, e, ha, _, _⟩
      rw [h] at ha
      exact Option.noConfusion ha
    unfold checkPrinterState
    simp [hstop]
  · intro a ha hne
    have hstop : checkStopped attrs = false := by
      rw [Bool.eq_false_iff]
      intro hc
      rcases (checkStopped_eq_true_iff attrs).mp hc with ⟨a', e, ha', hv, _⟩
      rw [ha] at ha'
      cases ha'
      exact hne e hv
    unfold checkPrinterState
    simp [hstop]
  · intro a e ha hv hf
    have hstop : checkStopped attrs = false := by
      rw [Bool.eq_false_iff]
      intro hc
      rcases (checkStopped_eq_true_iff attrs).mp hc with ⟨a', e', ha', hv', hf'⟩
      rw [ha] at ha'
      cases ha'
      rw [hv] at hv'
      cases hv'
      rw [hf] at hf'
      exact Option.noConfusion hf'
    unfold checkPrinterState
    simp [hstop]
  · intro hk hl
    cases v with
    | Keyword k => exact absurd rfl (hk k)
    | ListOf vs => exact absurd rfl (hl vs)
    | Integer i => rfl
    | Boolean b => rfl
    | Enum e => rfl
    | Text s => rfl
    | Other => rfl
  · intro a ha hempty
    unfold reasonsCheck
    simp [ha, hempty]

/-- C10 witness: a missing printer-state attribute, a non-Enum
printer-state, an unmapped enum integer, and a non-keyword reasons value
all leave the check to the reasons test (which such data cannot block). -/
theorem c10_lenient_malformed_state_witness :
    checkPrinterState [] = reasonsCheck []
    ∧ checkPrinterState [{ name := PRINTER_STATE, value := IppValue.Keyword "idle" }] =
        reasonsCheck [{ name := PRINTER_STATE, value := IppValue.Keyword "idle" }]
    ∧ checkPrinterState [{ name := PRINTER_STATE, value := IppValue.Enum 99 }] =
        reasonsCheck [{ name := PRINTER_STATE, value := IppValue.Enum 99 }]
    ∧ stateKeywords (IppValue.Integer 3) = []
    ∧ reasonsCheck [{ name := PRINTER_STATE_REASONS, value := IppValue.Integer 3 }] = none :=
  ⟨(c10_lenient_malformed_state [] IppValue.Other).1 rfl,
   (c10_lenient_malformed_state
      [{ name := PRINTER_STATE, value := IppValue.Keyword "idle" }] IppValue.Other).2.1
      { name := PRINTER_STATE, value := IppValue.Keyword "idle" } rfl
      (fun _ h => IppValue.noConfusion h),
   (c10_lenient_malformed_state
      [{ name := PRINTER_STATE, value := IppValue.Enum 99 }] IppValue.Other).2.2.1
      { name := PRINTER_STATE, value := IppValue.Enum 99 } 99 rfl rfl rfl,
   (c10_lenient_malformed_state [] (IppValue.Integer 3)).2.2.2.1
      (fun _ h => IppValue.noConfusion h) (fun _ h => IppValue.noConfusion h),
   (c10_lenient_malformed_state
      [{ name := PRINTER_STATE_REASONS, value := IppValue.Integer 3 }] IppValue.Other).2.2.2.2
      { name := PRINTER_STATE_REASONS, value := IppValue.Integer 3 } rfl rfl⟩
